import Mathlib

/-!
Verification development for the configuration loader in cmd/clair/config.go
(package main of the clair command).

The Go code is shallowly embedded as follows.

* Configuration values coming from the YAML file or from the environment are
  modelled as strings; a set of settings is an association list from the
  dotted viper key path (lowercased, exactly the strings appearing in the Go
  source) to the raw string value.
* The viper instance combines an environment layer and a file layer.  The
  environment layer models AutomaticEnv with the "clair" env name space: a
  variable is recorded here under the config key path it answers for.  For
  every lookup the environment takes precedence over the file, which takes
  precedence over the built-in zero value, matching viper resolution order.
* Machine integers (Go int, time.Duration as int64 nanoseconds) are modelled
  as Int; none of the code paths modelled here can overflow 64 bits on the
  inputs the claims are about.
* Fallible Go code returns Option/Except; a run-time panic (here: a write
  through the nil named return pointer) is a distinguished outcome.
* The process-global viper singleton clairConfig is modelled as explicit
  state (an Option of the retained file settings) passed in and out.
* crypto/rand used by fernet Key.Generate is modelled by an explicit entropy
  argument holding the 32 random bytes; generation itself always succeeds.
-/

/-- An association list of configuration settings: dotted key path to raw
string value. -/
abbrev Settings := List (String × String)

/-- Lookup of a key in a settings list (first binding wins, like a map). -/
def lookupS (m : Settings) (k : String) : Option String :=
  (m.find? (fun p => p.1 == k)).map (fun p => p.2)

/-- Go map assignment m[k] = v: replace any existing binding, else add. -/
def insertKV (m : Settings) (k v : String) : Settings :=
  (m.filter (fun p => !(p.1 == k))) ++ [(k, v)]

/-- Errors surfaced by the load, corresponding to the Go error values that can
reach the callers of LoadConfig. -/
inductive GoError where
  /-- viper.ReadInConfig with no usable config file (empty path). -/
  | configFileNotFound (name : String)
  /-- opening or parsing the config file at a given path failed. -/
  | fileReadError (path : String)
  /-- time.ParseDuration rejected a value; the error carries the value. -/
  | invalidDuration (value : String)
  /-- errors.New("Invalid Pagination key; must be 32-bit URL-safe base64"). -/
  | invalidPaginationKey
  /-- ErrDatasourceNotLoaded, declared at the top of config.go. -/
  | datasourceNotLoaded
deriving DecidableEq

/-- The message text of each error, as the Go code would render it. -/
def GoError.message : GoError → String
  | .configFileNotFound name => "Config File " ++ name ++ " Not Found in " ++ "[]"
  | .fileReadError path => "open " ++ path ++ ": no such file or directory"
  | .invalidDuration value => "time: invalid duration " ++ "\"" ++ value ++ "\""
  | .invalidPaginationKey => "Invalid Pagination key; must be 32-bit URL-safe base64"
  | .datasourceNotLoaded => "could not load configuration: no database source specified"

/-- ErrDatasourceNotLoaded from config.go line 34: declared as the error for a
missing datasource.  (LoadConfig itself never returns it.) -/
def ErrDatasourceNotLoaded : GoError := .datasourceNotLoaded

/-- Does the first character list occur at the head of the second? -/
def startsWithPat : List Char → List Char → Bool
  | [], _ => true
  | _ :: _, [] => false
  | a :: as, b :: bs => a == b && startsWithPat as bs

/-- Substring test on strings, used to ask whether an error message names a
given key. -/
def strContains (s pat : String) : Bool :=
  go s.toList
  where
    go : List Char → Bool
      | [] => startsWithPat pat.toList []
      | a :: t => startsWithPat pat.toList (a :: t) || go t

/-- Decimal digit value of a character. -/
def dval (c : Char) : Nat := c.toNat - 48

/-- Value of a list of decimal digit characters. -/
def digitsVal (ds : List Char) : Nat :=
  ds.foldl (fun a c => a * 10 + dval c) 0

/-- strconv integer parsing as used by cast.ToInt on a string: optional sign
followed by decimal digits; anything else fails.  (viper.GetInt returns 0 on
failure, with no error.) -/
def parseGoInt (s : String) : Option Int :=
  let cs := s.toList
  let signAndRest : Bool × List Char :=
    match cs with
    | '-' :: t => (true, t)
    | '+' :: t => (false, t)
    | t => (false, t)
  let neg := signAndRest.1
  let ds := signAndRest.2
  if ds.isEmpty then none
  else if ds.all (fun c => c.isDigit) then
    let n : Int := (digitsVal ds : Nat)
    some (if neg then -n else n)
  else none

/-- Nanoseconds per Go duration unit, from time.ParseDuration unit table. -/
def durUnitNs : List Char → Option Nat
  | ['n', 's'] => some 1
  | ['u', 's'] => some 1000
  | ['µ', 's'] => some 1000
  | ['m', 's'] => some 1000000
  | ['s'] => some 1000000000
  | ['m'] => some 60000000000
  | ['h'] => some 3600000000000
  | _ => none

/-- One pass of time.ParseDuration component scanning: repeated
digits[.digits]unit groups, summed in nanoseconds.  The fuel argument bounds
the recursion (each group consumes at least one character, so the initial fuel
of length+1 never runs out).  Go computes fractional parts through float64;
this model uses exact truncating division, which agrees on the inputs at
issue. -/
def parseDurComponents : Nat → List Char → Option Nat
  | _, [] => some 0
  | 0, _ => none
  | fuel + 1, cs =>
    let intDs := cs.takeWhile (fun c => c.isDigit)
    let r1 := cs.dropWhile (fun c => c.isDigit)
    let hasDot : Bool := match r1 with | '.' :: _ => true | _ => false
    let afterDot := match r1 with | '.' :: t => t | _ => r1
    let fracDs := if hasDot then afterDot.takeWhile (fun c => c.isDigit) else []
    let r2 := if hasDot then afterDot.dropWhile (fun c => c.isDigit) else r1
    if intDs.isEmpty && fracDs.isEmpty then none
    else
      let unitCs := r2.takeWhile (fun c => !(c.isDigit || c == '.'))
      let rest := r2.dropWhile (fun c => !(c.isDigit || c == '.'))
      match durUnitNs unitCs with
      | none => none
      | some unit =>
        let scale := 10 ^ fracDs.length
        let v := digitsVal intDs * unit + digitsVal fracDs * unit / scale
        match parseDurComponents fuel rest with
        | none => none
        | some restV => some (v + restV)

/-- time.ParseDuration: optional sign, the special case "0", then one or more
number-unit components; result in nanoseconds. -/
def parseDuration (s : String) : Option Int :=
  let cs := s.toList
  let signAndRest : Bool × List Char :=
    match cs with
    | '-' :: t => (true, t)
    | '+' :: t => (false, t)
    | t => (false, t)
  let neg := signAndRest.1
  let rest := signAndRest.2
  if rest = ['0'] then some 0
  else if rest.isEmpty then none
  else
    match parseDurComponents (rest.length + 1) rest with
    | none => none
    | some n => some (if neg then -(n : Int) else (n : Int))

/-! ### URL-safe base64 and the fernet key codec -/

/-- The URL-safe base64 alphabet. -/
def b64chars : List Char :=
  "ABCDEFGHIJKLMNOPQRSTUVWXYZabcdefghijklmnopqrstuvwxyz0123456789-_".toList

/-- Character for a six-bit value. -/
def b64chr (n : Nat) : Char := b64chars.getD n '='

/-- Index of a character in the URL-safe base64 alphabet. -/
def b64idx (c : Char) : Option Nat :=
  go b64chars 0
  where
    go : List Char → Nat → Option Nat
      | [], _ => none
      | d :: rest, i => if d == c then some i else go rest (i + 1)

/-- base64.URLEncoding.EncodeToString on a byte list, producing the padded
character stream. -/
def b64encodeList : List Nat → List Char
  | [] => []
  | [b0] => [b64chr (b0 / 4), b64chr (b0 % 4 * 16), '=', '=']
  | [b0, b1] => [b64chr (b0 / 4), b64chr (b0 % 4 * 16 + b1 / 16), b64chr (b1 % 16 * 4), '=']
  | b0 :: b1 :: b2 :: rest =>
    b64chr (b0 / 4) :: b64chr (b0 % 4 * 16 + b1 / 16) ::
      b64chr (b1 % 16 * 4 + b2 / 64) :: b64chr (b2 % 64) :: b64encodeList rest

/-- base64.URLEncoding.DecodeString on a character list: quanta of four
characters, padding allowed only in the final quantum, length must be a
multiple of four. -/
def b64decodeList : List Char → Option (List Nat)
  | [] => some []
  | c0 :: c1 :: c2 :: c3 :: rest =>
    match b64idx c0, b64idx c1 with
    | some s0, some s1 =>
      if c2 = '=' then
        if c3 = '=' ∧ rest.isEmpty then some [s0 * 4 + s1 / 16] else none
      else
        match b64idx c2 with
        | some s2 =>
          if c3 = '=' then
            if rest.isEmpty then some [s0 * 4 + s1 / 16, s1 % 16 * 16 + s2 / 4] else none
          else
            match b64idx c3, b64decodeList rest with
            | some s3, some bs =>
              some ((s0 * 4 + s1 / 16) :: (s1 % 16 * 16 + s2 / 4) :: (s2 % 4 * 64 + s3) :: bs)
            | _, _ => none
        | none => none
    | _, _ => none
  | _ => none

/-- Hex digit value. -/
def hexVal (c : Char) : Option Nat :=
  if c.isDigit then some (c.toNat - 48)
  else if 'a' ≤ c ∧ c ≤ 'f' then some (c.toNat - 87)
  else if 'A' ≤ c ∧ c ≤ 'F' then some (c.toNat - 55)
  else none

/-- hex.DecodeString on a character list. -/
def hexDecodeList : List Char → Option (List Nat)
  | [] => some []
  | c0 :: c1 :: rest =>
    match hexVal c0, hexVal c1, hexDecodeList rest with
    | some h0, some h1, some bs => some ((h0 * 16 + h1) :: bs)
    | _, _, _ => none
  | _ => none

/-- fernet Key.Encode: URL-safe base64 of the 32 key bytes. -/
def fernetEncode (key : List Nat) : String :=
  String.mk (b64encodeList key)

/-- fernet.DecodeKey: the empty string is rejected; a 64-character string is
decoded as hex; anything else as base64; the decoded bytes must number
exactly 32.  (The Go code first tries standard and then URL-safe base64; for
strings over the URL-safe alphabet the two agree, and this model applies the
URL-safe decoding.) -/
def fernetDecodeKey (s : String) : Option (List Nat) :=
  if s = "" then none
  else if s.length = 64 then
    match hexDecodeList s.toList with
    | some b => if b.length = 32 then some b else none
    | none => none
  else
    match b64decodeList s.toList with
    | some b => if b.length = 32 then some b else none
    | none => none

/-! ### The typed configuration model (config.go data model) -/

/-- database.RegistrableComponentConfig: backend type plus an untyped options
map.  All option values written by this code are strings.  The Go nil map of
DefaultConfig is modelled as the empty list; LoadConfig always replaces it
with a fresh map before writing. -/
@[ext]
structure RegistrableComponentConfig where
  type : String
  options : Settings
deriving DecidableEq

/-- clair.UpdaterConfig (the field LoadConfig touches). -/
@[ext]
structure UpdaterConfig where
  interval : Int
deriving DecidableEq

/-- notification.Config (the fields LoadConfig touches).  Params is a Go map
that DefaultConfig leaves nil; it is only ever written through the nil named
return pointer, which panics first. -/
@[ext]
structure NotifierConfig where
  attempts : Int
  renotifyInterval : Int
  params : Settings
deriving DecidableEq

/-- api.Config (the fields LoadConfig touches). -/
@[ext]
structure APIConfig where
  port : Int
  healthPort : Int
  timeout : Int
  caFile : String
  keyFile : String
  certFile : String
deriving DecidableEq

/-- The global configuration.  In Go the Updater, Notifier and API members
are pointers, but DefaultConfig always populates all of them, so they are
modelled as plain sub-structures; the separately nil-able named return
pointer of LoadConfig is modelled as an Option Config. -/
@[ext]
structure Config where
  database : RegistrableComponentConfig
  updater : UpdaterConfig
  notifier : NotifierConfig
  api : APIConfig
deriving DecidableEq

/-- DefaultConfig from config.go: pgsql, 1h updater interval, ports 6060 and
6061 with a 900s timeout, 5 notifier attempts and a 2h renotify interval.
Durations are in nanoseconds. -/
def DefaultConfig : Config :=
  { database := { type := "pgsql", options := [] }
  , updater := { interval := 3600000000000 }
  , notifier := { attempts := 5, renotifyInterval := 7200000000000, params := [] }
  , api := { port := 6060, healthPort := 6061, timeout := 900000000000
           , caFile := "", keyFile := "", certFile := "" } }

/-! ### The viper layer -/

/-- The viper instance after SetEnvPrefix("clair") and AutomaticEnv: an
environment layer (keyed here by the config key path the variable answers
for) over the file layer read by ReadInConfig. -/
structure Viper where
  envSettings : Settings
  fileSettings : Settings
deriving DecidableEq

/-- viper.IsSet: true when the environment or the file binds the key. -/
def Viper.isSet (v : Viper) (k : String) : Bool :=
  (lookupS v.envSettings k).isSome || (lookupS v.fileSettings k).isSome

/-- viper.GetString: the environment layer wins over the file layer; an unset
key reads as the empty string. -/
def Viper.getString (v : Viper) (k : String) : String :=
  match lookupS v.envSettings k with
  | some s => s
  | none => (lookupS v.fileSettings k).getD ""

/-- viper.GetInt: cast.ToInt of the resolved value; an unparseable or unset
value silently reads as 0. -/
def Viper.getInt (v : Viper) (k : String) : Int :=
  (parseGoInt (v.getString k)).getD 0

/-- viper.ReadInConfig after SetConfigFile(path): the empty path leaves no
config file set and the search fails; otherwise the file at the path either
yields its flattened settings or an open error.  The file system is an
explicit map from paths to parsed settings. -/
def readInConfig (path : String) (fs : String → Option Settings) :
    Settings × Option GoError :=
  if path = "" then ([], some (.configFileNotFound "clair"))
  else
    match fs path with
    | some s => (s, none)
    | none => ([], some (.fileReadError path))

/-! ### LoadConfig, step by step

Each `if clairConfig.IsSet(...)` block of LoadConfig is one step function,
in source order.  Steps that can return early (a failed ParseDuration) or
panic (a write through the nil named return pointer `config`) use Except. -/

/-- An exit from the middle of LoadConfig. -/
inductive Exit where
  /-- a `return` before the final assignment: the named return config is
  still nil, err holds the given error. -/
  | earlyRet (e : GoError)
  /-- a write through the nil named return pointer: run-time panic. -/
  | nilDeref
deriving DecidableEq

/-- The observable outcome of a LoadConfig call. -/
inductive LoadResult where
  /-- the call panicked (nil pointer dereference). -/
  | panicked
  /-- the call returned the (config, err) pair. -/
  | ret (config : Option Config) (err : Option GoError)
deriving DecidableEq

/-- Turn an exit into the outcome the caller observes. -/
def Exit.toResult : Exit → LoadResult
  | .earlyRet e => .ret none (some e)
  | .nilDeref => .panicked

/-- config.go line 95: clair.database.type into Database.Type. -/
def stepType (v : Viper) (c : Config) : Config :=
  if v.isSet "clair.database.type" then
    { c with database := { c.database with type := v.getString "clair.database.type" } }
  else c

/-- config.go line 98: clair.database.options.source into Options. -/
def stepSource (v : Viper) (c : Config) : Config :=
  if v.isSet "clair.database.options.source" then
    { c with database := { c.database with
        options := insertKV c.database.options "source"
          (v.getString "clair.database.options.source") } }
  else c

/-- config.go line 101: clair.database.options.cachesize into Options. -/
def stepCachesize (v : Viper) (c : Config) : Config :=
  if v.isSet "clair.database.options.cachesize" then
    { c with database := { c.database with
        options := insertKV c.database.options "cachesize"
          (v.getString "clair.database.options.cachesize") } }
  else c

/-- config.go line 104: clair.database.options.paginationkey into Options. -/
def stepPagOption (v : Viper) (c : Config) : Config :=
  if v.isSet "clair.database.options.paginationkey" then
    { c with database := { c.database with
        options := insertKV c.database.options "paginationkey"
          (v.getString "clair.database.options.paginationkey") } }
  else c

/-- config.go line 110: guarded by clair.database.api.healthaddr, but reading
the integer from clair.database.api.healthport. -/
def stepHealthPort (v : Viper) (c : Config) : Config :=
  if v.isSet "clair.database.api.healthaddr" then
    { c with api := { c.api with healthPort := v.getInt "clair.database.api.healthport" } }
  else c

/-- config.go line 113: clair.database.api.timeout parsed as a duration; a
parse failure returns early with the parse error. -/
def stepTimeout (v : Viper) (c : Config) (err : Option GoError) :
    Except Exit (Config × Option GoError) :=
  if v.isSet "clair.database.api.timeout" then
    match parseDuration (v.getString "clair.database.api.timeout") with
    | some d => .ok ({ c with api := { c.api with timeout := d } }, none)
    | none => .error (.earlyRet (.invalidDuration (v.getString "clair.database.api.timeout")))
  else .ok (c, err)

/-- config.go line 120: clair.database.api.cafile. -/
def stepCAFile (v : Viper) (c : Config) : Config :=
  if v.isSet "clair.database.api.cafile" then
    { c with api := { c.api with caFile := v.getString "clair.database.api.cafile" } }
  else c

/-- config.go line 123: clair.database.api.keyfile. -/
def stepKeyFile (v : Viper) (c : Config) : Config :=
  if v.isSet "clair.database.api.keyfile" then
    { c with api := { c.api with keyFile := v.getString "clair.database.api.keyfile" } }
  else c

/-- config.go line 126: clair.database.api.certfile. -/
def stepCertFile (v : Viper) (c : Config) : Config :=
  if v.isSet "clair.database.api.certfile" then
    { c with api := { c.api with certFile := v.getString "clair.database.api.certfile" } }
  else c

/-- config.go line 135: clair.database.updater.interval parsed as a duration;
a parse failure returns early with the parse error. -/
def stepUpdaterInterval (v : Viper) (c : Config) (err : Option GoError) :
    Except Exit (Config × Option GoError) :=
  if v.isSet "clair.database.updater.interval" then
    match parseDuration (v.getString "clair.database.updater.interval") with
    | some d => .ok ({ c with updater := { c.updater with interval := d } }, none)
    | none => .error (.earlyRet (.invalidDuration (v.getString "clair.database.updater.interval")))
  else .ok (c, err)

/-- config.go line 144: guarded by clair.database.notifier.attempts, but
reading the integer from clair.database.updater.attempts. -/
def stepNotifierAttempts (v : Viper) (c : Config) : Config :=
  if v.isSet "clair.database.notifier.attempts" then
    { c with notifier := { c.notifier with attempts := v.getInt "clair.database.updater.attempts" } }
  else c

/-- config.go line 147: guarded by clair.database.notifier.renotifyinterval,
but parsing the duration read from clair.database.updater.renotifyinterval;
a parse failure returns early with the parse error. -/
def stepNotifierRenotify (v : Viper) (c : Config) (err : Option GoError) :
    Except Exit (Config × Option GoError) :=
  if v.isSet "clair.database.notifier.renotifyinterval" then
    match parseDuration (v.getString "clair.database.updater.renotifyinterval") with
    | some d => .ok ({ c with notifier := { c.notifier with renotifyInterval := d } }, none)
    | none =>
      .error (.earlyRet (.invalidDuration (v.getString "clair.database.updater.renotifyinterval")))
  else .ok (c, err)

/-- config.go line 153: when clair.database.notifier.http is set the code
writes config.Notifier.Params through the nil named return pointer, a
run-time panic. -/
def stepNotifierHttp (v : Viper) : Except Exit Unit :=
  if v.isSet "clair.database.notifier.http" then .error .nilDeref else .ok ()

/-- config.go line 160: when no pagination key is configured, generate one
(the 32 entropy bytes), URL-safe base64 encode it and store it; Generate
always succeeds here, resetting err to nil.  When a key is configured, the
code first writes config.Database.Options through the nil named return
pointer, a run-time panic (reaching neither the wrong-key GetString nor the
DecodeKey validation after it). -/
def stepPaginationKey (v : Viper) (c : Config) (entropy : List Nat) :
    Except Exit (Config × Option GoError) :=
  if !(v.isSet "clair.database.options.paginationkey") then
    .ok ({ c with database := { c.database with
        options := insertKV c.database.options "paginationkey" (fernetEncode entropy) } }, none)
  else .error .nilDeref

/-- The pure head of the LoadConfig body: the default config with a fresh
empty Options map, then the first five guarded assignments in source order
(lines 92 to 112). -/
def resolvePure (v : Viper) : Config :=
  stepHealthPort v (stepPagOption v (stepCachesize v (stepSource v (stepType v
    { DefaultConfig with database := { DefaultConfig.database with options := [] } }))))

/-- The body of LoadConfig after the viper singleton is resolved: defaults,
the guarded assignments in source order, then the pagination key block and
the final return of (&cfgFile.Clair, err).  The error value carried out of
the renotify step is dead: the pagination key block always overwrites err
(with the Generate result) or panics. -/
def resolveConfig (v : Viper) (err0 : Option GoError) (entropy : List Nat) : LoadResult :=
  match stepTimeout v (resolvePure v) err0 with
  | .error ex => ex.toResult
  | .ok (c6, e6) =>
    match stepUpdaterInterval v (stepCertFile v (stepKeyFile v (stepCAFile v c6))) e6 with
    | .error ex => ex.toResult
    | .ok (c10, e10) =>
      match stepNotifierRenotify v (stepNotifierAttempts v c10) e10 with
      | .error ex => ex.toResult
      | .ok (c12, _e12) =>
        match stepNotifierHttp v with
        | .error ex => ex.toResult
        | .ok _ =>
          match stepPaginationKey v c12 entropy with
          | .error ex => ex.toResult
          | .ok (c13, err2) => .ret (some c13) err2

/-- LoadConfig.  The first argument models the process-global clairConfig
singleton: none on a fresh process (the viper is created and the file read),
some fileSettings when a previous call already created it (the whole read
block is skipped and err starts nil again).  The returned state retains the
file settings for the next call. -/
def loadConfig (st : Option Settings) (path : String) (fs : String → Option Settings)
    (env : Settings) (entropy : List Nat) : LoadResult × Option Settings :=
  match st with
  | none =>
    let r := readInConfig path fs
    (resolveConfig { envSettings := env, fileSettings := r.1 } r.2 entropy, some r.1)
  | some fileS =>
    (resolveConfig { envSettings := env, fileSettings := fileS } none entropy, some fileS)

/-! ### Observation helpers on load results -/

/-- Did the call return normally with a non-nil config pointer? -/
def LoadResult.isOk : LoadResult → Bool
  | .ret (some _) _ => true
  | _ => false

/-- The returned config, when the call returned one. -/
def LoadResult.retConfig : LoadResult → Option Config
  | .ret c _ => c
  | .panicked => none

/-- The returned error, when the call returned. -/
def LoadResult.retErr : LoadResult → Option GoError
  | .ret _ e => e
  | .panicked => none

/-- Database.Type of the returned config. -/
def LoadResult.dbType (r : LoadResult) : Option String :=
  r.retConfig.map (fun c => c.database.type)

/-- API.HealthPort of the returned config. -/
def LoadResult.healthPortOf (r : LoadResult) : Option Int :=
  r.retConfig.map (fun c => c.api.healthPort)

/-- Notifier.Attempts of the returned config. -/
def LoadResult.attemptsOf (r : LoadResult) : Option Int :=
  r.retConfig.map (fun c => c.notifier.attempts)

/-- Notifier.RenotifyInterval of the returned config. -/
def LoadResult.renotifyOf (r : LoadResult) : Option Int :=
  r.retConfig.map (fun c => c.notifier.renotifyInterval)

/-- The pagination key stored in Database.Options of the returned config. -/
def LoadResult.pagKeyOf (r : LoadResult) : Option String :=
  r.retConfig.bind (fun c => lookupS c.database.options "paginationkey")

/-- Does an optional string decode, via fernet.DecodeKey, to the required 32
key bytes? -/
def decodesToKeyLen : Option String → Bool
  | some s =>
    match fernetDecodeKey s with
    | some k => k.length == 32
    | none => false
  | none => false

/-- The viper layers a LoadConfig call resolves against: the environment of
the call over the file settings retained in the singleton state, or freshly
read when the state is empty. -/
def viperOf (st : Option Settings) (path : String) (fs : String → Option Settings)
    (env : Settings) : Viper :=
  { envSettings := env
  , fileSettings := match st with | some s => s | none => (readInConfig path fs).1 }

/-- Modelled from the spec (sections 4.2, 4.3 and 8): DefaultConfig overlaid,
per recognized key of the key table, by the environment layer alone (no file
contribution), with a pagination key generated and stored when none is
configured.  This is the comparison definition for the empty-path claim; it
follows the spec text (the intended self-consistent key table), not the
code. -/
def defaultOverlaidByEnv (env : Settings) (entropy : List Nat) : Config :=
  { database :=
    { type := (lookupS env "clair.database.type").getD "pgsql"
    , options :=
      let o0 : Settings := []
      let o1 := (lookupS env "clair.database.options.source").elim o0
        (fun s => insertKV o0 "source" s)
      let o2 := (lookupS env "clair.database.options.cachesize").elim o1
        (fun s => insertKV o1 "cachesize" s)
      (lookupS env "clair.database.options.paginationkey").elim
        (insertKV o2 "paginationkey" (fernetEncode entropy))
        (fun s => insertKV o2 "paginationkey" s) }
  , updater :=
    { interval := (lookupS env "clair.database.updater.interval").elim
        DefaultConfig.updater.interval
        (fun s => (parseDuration s).getD DefaultConfig.updater.interval) }
  , notifier :=
    { attempts := (lookupS env "clair.database.notifier.attempts").elim
        DefaultConfig.notifier.attempts (fun s => (parseGoInt s).getD 0)
    , renotifyInterval := (lookupS env "clair.database.notifier.renotifyinterval").elim
        DefaultConfig.notifier.renotifyInterval
        (fun s => (parseDuration s).getD DefaultConfig.notifier.renotifyInterval)
    , params := [] }
  , api :=
    { port := 6060
    , healthPort := (lookupS env "clair.database.api.healthport").elim
        DefaultConfig.api.healthPort (fun s => (parseGoInt s).getD 0)
    , timeout := (lookupS env "clair.database.api.timeout").elim
        DefaultConfig.api.timeout (fun s => (parseDuration s).getD DefaultConfig.api.timeout)
    , caFile := (lookupS env "clair.database.api.cafile").getD ""
    , keyFile := (lookupS env "clair.database.api.keyfile").getD ""
    , certFile := (lookupS env "clair.database.api.certfile").getD "" } }

/-! ### Basic lemmas about the settings and viper model -/

@[simp]
theorem lookupS_nil (k : String) : lookupS [] k = none := rfl

theorem lookupS_insertKV (m : Settings) (k v : String) :
    lookupS (insertKV m k v) k = some v := by
  induction m with
  | nil => simp [insertKV, lookupS, List.find?]
  | cons p t ih =>
    by_cases h : p.1 == k
    · simp only [insertKV, List.filter, h] at ih ⊢
      simpa using ih
    · simp only [insertKV, List.filter, h] at ih ⊢
      simp only [lookupS, List.find?, h] at ih ⊢
      exact ih

/-- IsSet on a viper with an empty file layer only consults the environment. -/
theorem isSet_envOnly (env : Settings) (k : String) :
    Viper.isSet { envSettings := env, fileSettings := [] } k = (lookupS env k).isSome := by
  simp [Viper.isSet]

/-- GetString on a viper with an empty file layer reads the environment with
an empty-string fallback. -/
theorem getString_envOnly (env : Settings) (k : String) :
    Viper.getString { envSettings := env, fileSettings := [] } k = (lookupS env k).getD "" := by
  unfold Viper.getString
  cases lookupS env k <;> rfl

theorem isOk_iff (r : LoadResult) :
    r.isOk = true ↔ ∃ cfg e, r = .ret (some cfg) e := by
  cases r with
  | panicked => simp [LoadResult.isOk]
  | ret c e => cases c <;> simp [LoadResult.isOk]

/-- A LoadConfig call is the body applied to the viper layers of the call. -/
theorem loadConfig_fst (st : Option Settings) (path : String)
    (fs : String → Option Settings) (env : Settings) (ent : List Nat) :
    (loadConfig st path fs env ent).1 =
      resolveConfig (viperOf st path fs env)
        (match st with | some _ => none | none => (readInConfig path fs).2) ent := by
  cases st <;> rfl

/-! ### Update-form lemmas for the pure steps -/

@[simp]
theorem stepType_eq (v : Viper) (c : Config) :
    stepType v c = { c with database := { c.database with type :=
      if (v.isSet "clair.database.type") then (v.getString "clair.database.type")
      else c.database.type } } := by
  unfold stepType; split_ifs <;> rfl

@[simp]
theorem stepSource_eq (v : Viper) (c : Config) :
    stepSource v c = { c with database := { c.database with options :=
      if (v.isSet "clair.database.options.source") then
        (insertKV c.database.options "source" (v.getString "clair.database.options.source"))
      else c.database.options } } := by
  unfold stepSource; split_ifs <;> rfl

@[simp]
theorem stepCachesize_eq (v : Viper) (c : Config) :
    stepCachesize v c = { c with database := { c.database with options :=
      if (v.isSet "clair.database.options.cachesize") then
        (insertKV c.database.options "cachesize" (v.getString "clair.database.options.cachesize"))
      else c.database.options } } := by
  unfold stepCachesize; split_ifs <;> rfl

@[simp]
theorem stepPagOption_eq (v : Viper) (c : Config) :
    stepPagOption v c = { c with database := { c.database with options :=
      if (v.isSet "clair.database.options.paginationkey") then
        (insertKV c.database.options "paginationkey"
          (v.getString "clair.database.options.paginationkey"))
      else c.database.options } } := by
  unfold stepPagOption; split_ifs <;> rfl

@[simp]
theorem stepHealthPort_eq (v : Viper) (c : Config) :
    stepHealthPort v c = { c with api := { c.api with healthPort :=
      if (v.isSet "clair.database.api.healthaddr") then (v.getInt "clair.database.api.healthport")
      else c.api.healthPort } } := by
  unfold stepHealthPort; split_ifs <;> rfl

@[simp]
theorem stepCAFile_eq (v : Viper) (c : Config) :
    stepCAFile v c = { c with api := { c.api with caFile :=
      if (v.isSet "clair.database.api.cafile") then (v.getString "clair.database.api.cafile")
      else c.api.caFile } } := by
  unfold stepCAFile; split_ifs <;> rfl

@[simp]
theorem stepKeyFile_eq (v : Viper) (c : Config) :
    stepKeyFile v c = { c with api := { c.api with keyFile :=
      if (v.isSet "clair.database.api.keyfile") then (v.getString "clair.database.api.keyfile")
      else c.api.keyFile } } := by
  unfold stepKeyFile; split_ifs <;> rfl

@[simp]
theorem stepCertFile_eq (v : Viper) (c : Config) :
    stepCertFile v c = { c with api := { c.api with certFile :=
      if (v.isSet "clair.database.api.certfile") then (v.getString "clair.database.api.certfile")
      else c.api.certFile } } := by
  unfold stepCertFile; split_ifs <;> rfl

@[simp]
theorem stepNotifierAttempts_eq (v : Viper) (c : Config) :
    stepNotifierAttempts v c = { c with notifier := { c.notifier with attempts :=
      if (v.isSet "clair.database.notifier.attempts") then (v.getInt "clair.database.updater.attempts")
      else c.notifier.attempts } } := by
  unfold stepNotifierAttempts; split_ifs <;> rfl

/-! ### Preservation lemmas for the fallible steps -/

theorem stepTimeout_ok (v : Viper) (c : Config) (err : Option GoError)
    (p : Config × Option GoError) (h : stepTimeout v c err = .ok p) :
    p.1.database = c.database ∧ p.1.notifier = c.notifier ∧ p.1.updater = c.updater ∧
      p.1.api.healthPort = c.api.healthPort := by
  unfold stepTimeout at h
  split at h
  · split at h
    · cases h; exact ⟨rfl, rfl, rfl, rfl⟩
    · exact Except.noConfusion h
  · cases h; exact ⟨rfl, rfl, rfl, rfl⟩

theorem stepUpdaterInterval_ok (v : Viper) (c : Config) (err : Option GoError)
    (p : Config × Option GoError) (h : stepUpdaterInterval v c err = .ok p) :
    p.1.database = c.database ∧ p.1.notifier = c.notifier ∧ p.1.api = c.api := by
  unfold stepUpdaterInterval at h
  split at h
  · split at h
    · cases h; exact ⟨rfl, rfl, rfl⟩
    · exact Except.noConfusion h
  · cases h; exact ⟨rfl, rfl, rfl⟩

theorem stepNotifierRenotify_ok (v : Viper) (c : Config) (err : Option GoError)
    (p : Config × Option GoError) (h : stepNotifierRenotify v c err = .ok p) :
    p.1.database = c.database ∧ p.1.updater = c.updater ∧ p.1.api = c.api := by
  unfold stepNotifierRenotify at h
  split at h
  · split at h
    · cases h; exact ⟨rfl, rfl, rfl⟩
    · exact Except.noConfusion h
  · cases h; exact ⟨rfl, rfl, rfl⟩

theorem stepPaginationKey_ok (v : Viper) (c : Config) (ent : List Nat)
    (p : Config × Option GoError) (h : stepPaginationKey v c ent = .ok p) :
    v.isSet "clair.database.options.paginationkey" = false ∧
    p.2 = none ∧
    p.1.database.type = c.database.type ∧
    p.1.api = c.api ∧
    p.1.database.options = insertKV c.database.options "paginationkey" (fernetEncode ent) := by
  unfold stepPaginationKey at h
  split at h
  · cases h
    rename_i hguard
    refine ⟨by simpa using hguard, rfl, rfl, rfl, rfl⟩
  · exact Except.noConfusion h

/-! ### Lemmas about the base64 codec and the fernet key layout -/

theorem b64idx_chr : ∀ n < 64, b64idx (b64chr n) = some n := by decide

theorem b64chr_ne_pad : ∀ n < 64, ¬ b64chr n = '=' := by decide

theorem b64_roundtrip : ∀ (bs : List Nat), (∀ b ∈ bs, b < 256) →
    b64decodeList (b64encodeList bs) = some bs
  | [], _ => rfl
  | [b0], h => by
    have hb0 : b0 < 256 := h b0 (by simp)
    have h1 := b64idx_chr (b0 / 4) (by omega)
    have h2 := b64idx_chr (b0 % 4 * 16) (by omega)
    simp [b64encodeList, b64decodeList, h1, h2]
    omega
  | [b0, b1], h => by
    have hb0 : b0 < 256 := h b0 (by simp)
    have hb1 : b1 < 256 := h b1 (by simp)
    have h1 := b64idx_chr (b0 / 4) (by omega)
    have h2 := b64idx_chr (b0 % 4 * 16 + b1 / 16) (by omega)
    have h3 := b64idx_chr (b1 % 16 * 4) (by omega)
    have hne := b64chr_ne_pad (b1 % 16 * 4) (by omega)
    simp [b64encodeList, b64decodeList, h1, h2, h3, hne]
    omega
  | b0 :: b1 :: b2 :: rest, h => by
    have hb0 : b0 < 256 := h b0 (by simp)
    have hb1 : b1 < 256 := h b1 (by simp)
    have hb2 : b2 < 256 := h b2 (by simp)
    have ih := b64_roundtrip rest (fun b hb => h b (by simp [hb]))
    have h1 := b64idx_chr (b0 / 4) (by omega)
    have h2 := b64idx_chr (b0 % 4 * 16 + b1 / 16) (by omega)
    have h3 := b64idx_chr (b1 % 16 * 4 + b2 / 64) (by omega)
    have h4 := b64idx_chr (b2 % 64) (by omega)
    have hne3 := b64chr_ne_pad (b1 % 16 * 4 + b2 / 64) (by omega)
    have hne4 := b64chr_ne_pad (b2 % 64) (by omega)
    simp [b64encodeList, b64decodeList, h1, h2, h3, h4, hne3, hne4, ih]
    omega

theorem b64encodeList_length : ∀ bs : List Nat,
    (b64encodeList bs).length = (bs.length + 2) / 3 * 4
  | [] => rfl
  | [_] => by simp [b64encodeList]
  | [_, _] => by simp [b64encodeList]
  | _ :: _ :: _ :: rest => by
    have ih := b64encodeList_length rest
    simp [b64encodeList, ih]
    omega

theorem fernetEncode_length (k : List Nat) (hlen : k.length = 32) :
    (fernetEncode k).length = 44 := by
  show (b64encodeList k).length = 44
  rw [b64encodeList_length, hlen]

theorem fernetDecode_encode (k : List Nat) (hlen : k.length = 32)
    (hb : ∀ b ∈ k, b < 256) : fernetDecodeKey (fernetEncode k) = some k := by
  have hl : (fernetEncode k).length = 44 := fernetEncode_length k hlen
  have hne : ¬ fernetEncode k = "" := by
    intro hcon
    rw [hcon] at hl
    simp at hl
  unfold fernetDecodeKey
  rw [if_neg hne, if_neg (by simp [hl])]
  have htl : (fernetEncode k).toList = b64encodeList k := rfl
  rw [htl, b64_roundtrip k hb]
  simp [hlen]

/-! ### Characterization of a normal return of the LoadConfig body -/

theorem resolve_ret_char (v : Viper) (err0 : Option GoError) (ent : List Nat)
    (cfg : Config) (e : Option GoError)
    (h : resolveConfig v err0 ent = .ret (some cfg) e) :
    e = none ∧
    v.isSet "clair.database.options.paginationkey" = false ∧
    cfg.database.type =
      (if (v.isSet "clair.database.type") then (v.getString "clair.database.type")
       else "pgsql") ∧
    cfg.api.healthPort =
      (if (v.isSet "clair.database.api.healthaddr") then (v.getInt "clair.database.api.healthport")
       else 6061) ∧
    lookupS cfg.database.options "paginationkey" = some (fernetEncode ent) := by
  unfold resolveConfig at h
  split at h
  · rename_i ex heq1
    cases ex <;> simp [Exit.toResult] at h
  · rename_i c6 e6 heq1
    split at h
    · rename_i ex heq2
      cases ex <;> simp [Exit.toResult] at h
    · rename_i c10 e10 heq2
      split at h
      · rename_i ex heq3
        cases ex <;> simp [Exit.toResult] at h
      · rename_i c12 e12 heq3
        split at h
        · rename_i ex heq4
          cases ex <;> simp [Exit.toResult] at h
        · rename_i u heq4
          split at h
          · rename_i ex heq5
            cases ex <;> simp [Exit.toResult] at h
          · rename_i c13 err2 heq5
            injection h with h1 h2
            have hc : cfg = c13 := (Option.some.inj h1).symm
            have he2 : e = err2 := h2.symm
            obtain ⟨hguard, he, hty13, hapi13, hopt13⟩ :=
              stepPaginationKey_ok v c12 ent (c13, err2) heq5
            obtain ⟨hdb12, _, hapi12⟩ :=
              stepNotifierRenotify_ok v (stepNotifierAttempts v c10) e10 (c12, e12) heq3
            simp only [stepNotifierAttempts_eq] at hdb12 hapi12
            obtain ⟨hdb10, _, hapi10⟩ :=
              stepUpdaterInterval_ok v (stepCertFile v (stepKeyFile v (stepCAFile v c6))) e6
                (c10, e10) heq2
            simp only [stepCertFile_eq, stepKeyFile_eq, stepCAFile_eq] at hdb10 hapi10
            obtain ⟨hdb6, _, _, hhp6⟩ :=
              stepTimeout_ok v (resolvePure v) err0 (c6, e6) heq1
            have hdbPure : (resolvePure v).database.type =
                (if (v.isSet "clair.database.type") then (v.getString "clair.database.type")
                 else "pgsql") := by
              simp [resolvePure, DefaultConfig]
            have hhpPure : (resolvePure v).api.healthPort =
                (if (v.isSet "clair.database.api.healthaddr")
                 then (v.getInt "clair.database.api.healthport") else 6061) := by
              simp [resolvePure, DefaultConfig]
            refine ⟨?_, hguard, ?_, ?_, ?_⟩
            · rw [he2]; exact he
            · rw [hc, hty13, hdb12, hdb10, hdb6, hdbPure]
            · rw [hc, hapi13, hapi12, hapi10, hhp6, hhpPure]
            · rw [hc, hopt13, lookupS_insertKV]

/-! ### Bridging lemmas between the code-side guards and the overlay form -/

theorem overlayString (o : Option String) (d : String) :
    (if o.isSome = true then o.getD "" else d) = o.getD d := by
  cases o <;> rfl

theorem overlayOpt (o : Option String) (m : Settings) (key : String) :
    (if o.isSome = true then insertKV m key (o.getD "") else m) =
      o.elim m (fun s => insertKV m key s) := by
  cases o <;> rfl

/-! ### The claims -/

/-- Claim C1 (code_bug): with a configured pagination key that is not a valid
URL-safe base64 key of the required length (fernet.DecodeKey rejects
"not-a-key"), LoadConfig does not fail with the claimed validation error: it
panics on the write through the nil named return pointer `config` at line 168
before any validation runs. -/
theorem c1_invalid_key_panics :
    fernetDecodeKey "not-a-key" = none ∧
    (loadConfig none "" (fun _ => none)
      [("clair.database.options.paginationkey", "not-a-key")] (List.replicate 32 0)).1 =
      .panicked := by
  exact ⟨by decide, by decide⟩

/-- Claim C2 (code_bug): LoadConfig does not return normally on every input:
when clair.database.notifier.http is set, the write through the nil named
return pointer `config` at line 154 is a nil pointer dereference, a run-time
panic that terminates the process. -/
theorem c2_notifier_http_panics :
    (loadConfig none "" (fun _ => none)
      [("clair.database.notifier.http", "http://example.com/notify")]
      (List.replicate 32 0)).1 = .panicked := by
  decide

/-- Claim C3 (code_bug): notifier settings are not resolved from notifier
keys.  With clair.database.notifier.attempts set to "3" the effective
Notifier.Attempts is 0 (read from the unset clair.database.updater.attempts),
and with clair.database.notifier.renotifyinterval set to the valid duration
"90m" the load aborts with a parse error on the empty string read from
clair.database.updater.renotifyinterval. -/
theorem c3_notifier_cross_wiring :
    (loadConfig none "" (fun _ => none)
      [("clair.database.notifier.attempts", "3")] (List.replicate 32 0)).1.attemptsOf =
      some 0 ∧
    (loadConfig none "" (fun _ => none)
      [("clair.database.notifier.renotifyinterval", "90m")] (List.replicate 32 0)).1 =
      .ret none (some (.invalidDuration "")) := by
  exact ⟨by decide, by decide⟩

/-- Claim C6 (code_bug): with no database connection source configured at any
layer (empty path, empty environment), LoadConfig succeeds with a nil error;
it never returns the declared ErrDatasourceNotLoaded sentinel. -/
theorem c6_no_datasource_check :
    (loadConfig none "" (fun _ => none) [] (List.replicate 32 0)).1.isOk = true ∧
    (loadConfig none "" (fun _ => none) [] (List.replicate 32 0)).1.retErr = none ∧
    ((loadConfig none "" (fun _ => none) [] (List.replicate 32 0)).1.retErr ==
      some ErrDatasourceNotLoaded) = false := by
  exact ⟨by decide, by decide, by decide⟩

/-- Claim C5 (counterexample): the claim fails as stated.  An unparseable
configured integer (healthport "nine", read because healthaddr is set) does
not abort the load: the load succeeds and the value silently becomes 0.  An
unparseable configured duration does abort, but the error carries only the
offending value, not the offending key (the message for "5 bananas" does not
even contain "interval"). -/
theorem c5_counterexample :
    (loadConfig none "" (fun _ => none)
      [("clair.database.api.healthaddr", "0.0.0.0:6061"),
       ("clair.database.api.healthport", "nine")] (List.replicate 32 0)).1.isOk = true ∧
    (loadConfig none "" (fun _ => none)
      [("clair.database.api.healthaddr", "0.0.0.0:6061"),
       ("clair.database.api.healthport", "nine")] (List.replicate 32 0)).1.healthPortOf =
      some 0 ∧
    (loadConfig none "" (fun _ => none)
      [("clair.database.updater.interval", "5 bananas")] (List.replicate 32 0)).1 =
      .ret none (some (.invalidDuration "5 bananas")) ∧
    strContains (GoError.message (.invalidDuration "5 bananas"))
      "clair.database.updater.interval" = false ∧
    strContains (GoError.message (.invalidDuration "5 bananas")) "interval" = false := by
  exact ⟨by decide, by decide, by decide, by decide, by decide⟩

/-- Claim C5 (amended): a configured duration value that fails to parse
aborts the entire load with the duration parse error carrying the offending
value (no fallback to the default); a configured integer value that fails to
parse never aborts and is silently read as 0. -/
theorem c5_amended :
    (∀ (v : Viper) (err0 : Option GoError) (ent : List Nat) (val : String),
      v.isSet "clair.database.updater.interval" = true →
      v.getString "clair.database.updater.interval" = val →
      parseDuration val = none →
      (v.isSet "clair.database.api.timeout" = true →
        (parseDuration (v.getString "clair.database.api.timeout")).isSome = true) →
      resolveConfig v err0 ent = .ret none (some (.invalidDuration val))) ∧
    (∀ (v : Viper) (err0 : Option GoError) (ent : List Nat),
      v.isSet "clair.database.api.healthaddr" = true →
      parseGoInt (v.getString "clair.database.api.healthport") = none →
      (resolveConfig v err0 ent).isOk = true →
      (resolveConfig v err0 ent).healthPortOf = some 0) := by
  constructor
  · intro v err0 ent val h1 h2 h3 h4
    have hred : ∃ c2 e2, stepTimeout v (resolvePure v) err0 = .ok (c2, e2) := by
      unfold stepTimeout
      by_cases hT : v.isSet "clair.database.api.timeout" = true
      · obtain ⟨d, hd⟩ := Option.isSome_iff_exists.mp (h4 hT)
        refine ⟨{ resolvePure v with
          api := { (resolvePure v).api with timeout := d } }, none, ?_⟩
        rw [if_pos hT, hd]
      · refine ⟨resolvePure v, err0, ?_⟩
        rw [if_neg hT]
    obtain ⟨c2, e2, hT⟩ := hred
    unfold resolveConfig
    simp only [hT]
    have hU : stepUpdaterInterval v (stepCertFile v (stepKeyFile v (stepCAFile v c2))) e2 =
        .error (.earlyRet (.invalidDuration val)) := by
      unfold stepUpdaterInterval
      rw [if_pos h1, h2, h3]
    simp only [hU]
    rfl
  · intro v err0 ent hA hP hok
    obtain ⟨cfg, e, hr⟩ := (isOk_iff _).mp hok
    obtain ⟨-, -, -, hhp, -⟩ := resolve_ret_char v err0 ent cfg e hr
    rw [hr]
    simp [LoadResult.healthPortOf, LoadResult.retConfig, hhp, hA, Viper.getInt, hP]

/-- Witness for the amended claim C5: the duration part applied at the
concrete input with updater interval "5 bananas". -/
theorem c5_amended_witness :
    resolveConfig
      { envSettings := [("clair.database.updater.interval", "5 bananas")], fileSettings := [] }
      none (List.replicate 32 0) =
      .ret none (some (.invalidDuration "5 bananas")) :=
  c5_amended.1
    { envSettings := [("clair.database.updater.interval", "5 bananas")], fileSettings := [] }
    none (List.replicate 32 0) "5 bananas" (by decide) (by decide) (by decide) (by decide)

/-- Claim C7 (confirmed): for every key the environment layer wins over the
file layer, which wins over the built-in default (an unset key is not set at
all); end to end, an environment override of clair.database.type determines
Database.Type of any successfully returned config. -/
theorem c7_env_precedence :
    (∀ (file env : Settings) (k val : String), lookupS env k = some val →
      Viper.getString { envSettings := env, fileSettings := file } k = val) ∧
    (∀ (file env : Settings) (k val : String), lookupS env k = none →
      lookupS file k = some val →
      Viper.getString { envSettings := env, fileSettings := file } k = val) ∧
    (∀ (file env : Settings) (k : String), lookupS env k = none → lookupS file k = none →
      Viper.isSet { envSettings := env, fileSettings := file } k = false) ∧
    (∀ (st : Option Settings) (p : String) (fs : String → Option Settings)
      (env : Settings) (ent : List Nat) (val : String),
      lookupS env "clair.database.type" = some val →
      (loadConfig st p fs env ent).1.isOk = true →
      (loadConfig st p fs env ent).1.dbType = some val) := by
  refine ⟨?_, ?_, ?_, ?_⟩
  · intro file env k val h
    simp [Viper.getString, h]
  · intro file env k val h1 h2
    simp [Viper.getString, h1, h2]
  · intro file env k h1 h2
    simp [Viper.isSet, h1, h2]
  · intro st p fs env ent val h hok
    rw [loadConfig_fst] at hok ⊢
    obtain ⟨cfg, e, hr⟩ := (isOk_iff _).mp hok
    obtain ⟨-, -, hty, -, -⟩ := resolve_ret_char _ _ _ _ _ hr
    rw [hr]
    have hset : (viperOf st p fs env).isSet "clair.database.type" = true := by
      simp [viperOf, Viper.isSet, h]
    have hgs : (viperOf st p fs env).getString "clair.database.type" = val := by
      simp [viperOf, Viper.getString, h]
    simp [LoadResult.dbType, LoadResult.retConfig, hty, hset, hgs]

/-- Witness for claim C7: environment mysql beats file pgsql. -/
theorem c7_env_precedence_witness :
    (loadConfig none "/etc/clair/config.yaml"
      (fun _ => some [("clair.database.type", "pgsql")])
      [("clair.database.type", "mysql")] (List.replicate 32 0)).1.dbType = some "mysql" :=
  c7_env_precedence.2.2.2 none "/etc/clair/config.yaml"
    (fun _ => some [("clair.database.type", "pgsql")])
    [("clair.database.type", "mysql")] (List.replicate 32 0) "mysql" (by decide) (by decide)

/-- Claim C8 (confirmed): whenever LoadConfig returns with a config and a nil
error, Database.Options carries a "paginationkey" entry whose string value
fernet-decodes to exactly the 32 required key bytes. -/
theorem c8_pagination_key_invariant (st : Option Settings) (p : String)
    (fs : String → Option Settings) (env : Settings) (ent : List Nat)
    (hlen : ent.length = 32) (hb : ∀ b ∈ ent, b < 256)
    (hok : (loadConfig st p fs env ent).1.isOk = true)
    (_herr : (loadConfig st p fs env ent).1.retErr = none) :
    ((loadConfig st p fs env ent).1.pagKeyOf).isSome = true ∧
    decodesToKeyLen ((loadConfig st p fs env ent).1.pagKeyOf) = true := by
  rw [loadConfig_fst] at hok ⊢
  obtain ⟨cfg, e, hr⟩ := (isOk_iff _).mp hok
  obtain ⟨-, -, -, -, hpk⟩ := resolve_ret_char _ _ _ _ _ hr
  rw [hr]
  simp [LoadResult.pagKeyOf, LoadResult.retConfig, hpk, decodesToKeyLen,
    fernetDecode_encode ent hlen hb, hlen]

/-- Witness for claim C8 at a fresh load with empty environment. -/
theorem c8_pagination_key_invariant_witness :
    ((loadConfig none "" (fun _ => none) [] (List.replicate 32 0)).1.pagKeyOf).isSome = true ∧
    decodesToKeyLen
      ((loadConfig none "" (fun _ => none) [] (List.replicate 32 0)).1.pagKeyOf) = true :=
  c8_pagination_key_invariant none "" (fun _ => none) [] (List.replicate 32 0)
    (by decide) (by decide) (by decide) (by decide)

/-- Claim C9 (confirmed): after a first successful call, a second call runs
against the retained singleton state: its result does not depend on the new
path or file system at all, and equals the resolution against the first
call's file contents. -/
theorem c9_singleton_state_reuse (p1 : String) (fs1 : String → Option Settings)
    (env1 : Settings) (ent1 : List Nat) (r1 : LoadResult) (st1 : Option Settings)
    (hfirst : loadConfig none p1 fs1 env1 ent1 = (r1, st1))
    (_hok : r1.isOk = true)
    (p2 p3 : String) (fs2 fs3 : String → Option Settings) (env2 : Settings) (ent2 : List Nat) :
    loadConfig st1 p2 fs2 env2 ent2 = loadConfig st1 p3 fs3 env2 ent2 ∧
    (loadConfig st1 p2 fs2 env2 ent2).1 =
      resolveConfig { envSettings := env2, fileSettings := (readInConfig p1 fs1).1 }
        none ent2 := by
  have hst : st1 = (loadConfig none p1 fs1 env1 ent1).2 := (congrArg Prod.snd hfirst).symm
  rw [hst]
  exact ⟨rfl, rfl⟩

/-- Witness for claim C9: a first successful load pins the file contents; the
two second calls with different paths and file systems agree. -/
theorem c9_singleton_state_reuse_witness :
    loadConfig (some [("clair.database.type", "mysql")]) "/second/path.yaml"
        (fun _ => some [("clair.database.type", "sqlite")]) [] (List.replicate 32 0) =
      loadConfig (some [("clair.database.type", "mysql")]) "/third/path.yaml"
        (fun _ => none) [] (List.replicate 32 0) ∧
    (loadConfig (some [("clair.database.type", "mysql")]) "/second/path.yaml"
        (fun _ => some [("clair.database.type", "sqlite")]) [] (List.replicate 32 0)).1 =
      resolveConfig
        { envSettings := []
        , fileSettings := (readInConfig "/first/path.yaml"
            (fun _ => some [("clair.database.type", "mysql")])).1 }
        none (List.replicate 32 0) :=
  c9_singleton_state_reuse "/first/path.yaml" (fun _ => some [("clair.database.type", "mysql")])
    [] (List.replicate 32 0) _ _ rfl (by decide) "/second/path.yaml" "/third/path.yaml"
    (fun _ => some [("clair.database.type", "sqlite")]) (fun _ => none) [] (List.replicate 32 0)

/-- Claim C10 (confirmed): when clair.database.api.healthaddr is not set at
any layer, a successfully returned config keeps the default HealthPort 6061,
whatever clair.database.api.healthport says: the guard key differs from the
key whose value is read. -/
theorem c10_healthaddr_guard (st : Option Settings) (p : String)
    (fs : String → Option Settings) (env : Settings) (ent : List Nat)
    (hguard : (viperOf st p fs env).isSet "clair.database.api.healthaddr" = false)
    (hok : (loadConfig st p fs env ent).1.isOk = true) :
    (loadConfig st p fs env ent).1.healthPortOf = some 6061 := by
  rw [loadConfig_fst] at hok ⊢
  obtain ⟨cfg, e, hr⟩ := (isOk_iff _).mp hok
  obtain ⟨-, -, -, hhp, -⟩ := resolve_ret_char _ _ _ _ _ hr
  rw [hr]
  simp [LoadResult.healthPortOf, LoadResult.retConfig, hhp, hguard]

/-- Witness for claim C10: healthport 9999 alone leaves HealthPort at 6061. -/
theorem c10_healthaddr_guard_witness :
    (loadConfig none "" (fun _ => none) [("clair.database.api.healthport", "9999")]
      (List.replicate 32 0)).1.healthPortOf = some 6061 :=
  c10_healthaddr_guard none "" (fun _ => none) [("clair.database.api.healthport", "9999")]
    (List.replicate 32 0) (by decide) (by decide)

/-- Claim C4 (confirmed): with the empty path on a fresh process, the file
system contributes nothing (fs is arbitrary and never read), the failure of
the absent file does not surface (the returned error is nil, the read error
being overwritten by the pagination key generation), and the returned config
is DefaultConfig overlaid only by the environment layer, with the generated
pagination key stored.  The hypotheses keep the environment away from the
separately reported defects: no configured pagination key or notifier.http
(claims C1 and C2: panic), no notifier.attempts, notifier.renotifyinterval,
healthaddr or healthport overrides (claims C3 and C10: cross-wired keys), and
parseable duration overrides (claim C5). -/
theorem c4_empty_path_defaults (fs : String → Option Settings) (env : Settings)
    (ent : List Nat)
    (hpk : lookupS env "clair.database.options.paginationkey" = none)
    (hhttp : lookupS env "clair.database.notifier.http" = none)
    (hatt : lookupS env "clair.database.notifier.attempts" = none)
    (hren : lookupS env "clair.database.notifier.renotifyinterval" = none)
    (hha : lookupS env "clair.database.api.healthaddr" = none)
    (hhp : lookupS env "clair.database.api.healthport" = none)
    (htime : ∀ s, lookupS env "clair.database.api.timeout" = some s →
      (parseDuration s).isSome = true)
    (hint : ∀ s, lookupS env "clair.database.updater.interval" = some s →
      (parseDuration s).isSome = true) :
    loadConfig none "" fs env ent =
      (.ret (some (defaultOverlaidByEnv env ent)) none, some ([] : Settings)) := by
  have h0 : loadConfig none "" fs env ent =
      (resolveConfig { envSettings := env, fileSettings := [] }
        (some (.configFileNotFound "clair")) ent, some ([] : Settings)) := rfl
  rw [h0]
  suffices hmain : resolveConfig { envSettings := env, fileSettings := [] }
      (some (.configFileNotFound "clair")) ent =
      .ret (some (defaultOverlaidByEnv env ent)) none by rw [hmain]
  rcases hT : lookupS env "clair.database.api.timeout" with _ | s1 <;>
    rcases hI : lookupS env "clair.database.updater.interval" with _ | s2
  · simp [resolveConfig, stepTimeout, stepUpdaterInterval, stepNotifierRenotify,
      stepNotifierHttp, stepPaginationKey, isSet_envOnly, getString_envOnly,
      hpk, hhttp, hatt, hren, hha, hhp, hT, hI,
      resolvePure, defaultOverlaidByEnv, DefaultConfig, overlayString, overlayOpt]
  · obtain ⟨d2, hd2⟩ := Option.isSome_iff_exists.mp (hint s2 hI)
    simp [resolveConfig, stepTimeout, stepUpdaterInterval, stepNotifierRenotify,
      stepNotifierHttp, stepPaginationKey, isSet_envOnly, getString_envOnly,
      hpk, hhttp, hatt, hren, hha, hhp, hT, hI, hd2,
      resolvePure, defaultOverlaidByEnv, DefaultConfig, overlayString, overlayOpt]
  · obtain ⟨d1, hd1⟩ := Option.isSome_iff_exists.mp (htime s1 hT)
    simp [resolveConfig, stepTimeout, stepUpdaterInterval, stepNotifierRenotify,
      stepNotifierHttp, stepPaginationKey, isSet_envOnly, getString_envOnly,
      hpk, hhttp, hatt, hren, hha, hhp, hT, hI, hd1,
      resolvePure, defaultOverlaidByEnv, DefaultConfig, overlayString, overlayOpt]
  · obtain ⟨d1, hd1⟩ := Option.isSome_iff_exists.mp (htime s1 hT)
    obtain ⟨d2, hd2⟩ := Option.isSome_iff_exists.mp (hint s2 hI)
    simp [resolveConfig, stepTimeout, stepUpdaterInterval, stepNotifierRenotify,
      stepNotifierHttp, stepPaginationKey, isSet_envOnly, getString_envOnly,
      hpk, hhttp, hatt, hren, hha, hhp, hT, hI, hd1, hd2,
      resolvePure, defaultOverlaidByEnv, DefaultConfig, overlayString, overlayOpt]

/-- Witness for claim C4 at the empty environment. -/
theorem c4_empty_path_defaults_witness :
    loadConfig none "" (fun _ => none) [] (List.replicate 32 0) =
      (.ret (some (defaultOverlaidByEnv [] (List.replicate 32 0))) none,
        some ([] : Settings)) :=
  c4_empty_path_defaults (fun _ => none) [] (List.replicate 32 0)
    rfl rfl rfl rfl rfl rfl (fun _ h => Option.noConfusion h) (fun _ h => Option.noConfusion h)
